import Mathlib

/-!
Verification of the CertIntel file-upload/retrieval handlers and the
auth/profile state adapter, as a shallow embedding in Lean 4.

Sources embedded:
* the upload route (`parseFormRevised`, `POST`): multipart form handling,
  temp-file scratch management, PDF forwarding to the Flask converter,
  direct GridFS upload of supported images;
* the by-id route (`GET`, `DELETE`): id validation, lookup, owner check;
* `AuthContext.tsx` (`AuthProvider` effect): auth-state subscription swap.

External effects (DB connectivity, temp-file writes, the Flask service,
the GridFS upload stream) are modelled as oracle inputs in an environment
record: each oracle records the outcome the external system produced for
this request, and the handler is a pure function of the request and the
oracles. The GridFS object store is a list of stored file documents
(`images.files`), threaded in and out to observe writes and deletions.
-/

namespace CertIntel

/-- A multipart form entry value: a text field or a file
(mirrors the `value instanceof File` split in `parseFormRevised`).
A browser `File` always carries a string `name`, string `type` (possibly
empty) and a byte size. -/
inductive FormValue where
  | text (s : String)
  | file (name : String) (mimetype : String) (size : Nat)
deriving Repr, DecidableEq

/-- `CustomUploadedFile` from the upload route: the temp-file record built
for each file field. -/
structure CustomUploadedFile where
  filepath : String
  originalFilename : String
  mimetype : String
  size : Nat
deriving Repr, DecidableEq

/-- A GridFS `images.files` document: store id (hex string), stored
filename, content type, byte length, and the `metadata.userId` owner
field (absent when the document has no owner metadata). -/
structure StoredFile where
  id : String
  filename : String
  contentType : String
  length : Nat
  ownerId : Option String
deriving Repr, DecidableEq

/-- The character filter of `name.replace(/[^a-zA-Z0-9_.-]/g, '_')`:
keep ASCII alphanumerics, underscore, dot and hyphen; replace every other
character by an underscore. -/
def safeChar (c : Char) : Char :=
  if ('a' ≤ c && c ≤ 'z') || ('A' ≤ c && c ≤ 'Z') || ('0' ≤ c && c ≤ '9')
      || c = '_' || c = '.' || c = '-' then c else '_'

/-- `value.name.replace(/[^a-zA-Z0-9_.-]/g, '_')`: the per-character
replacement applied over the string's characters. -/
def safeOriginalName (s : String) : String := String.mk (s.data.map safeChar)

/-- The temp scratch path `nextjs_temp_${reqId}_${Date.now()}_${safe}`
joined under the OS temp dir. The timestamp is modelled by the running
index of the file entry within the request, which (like the timestamp's
role) only serves to make paths distinct per written file. -/
def tempPath (reqId : String) (idx : Nat) (safe : String) : String :=
  "/tmp/nextjs_temp_" ++ reqId ++ "_" ++ toString idx ++ "_" ++ safe

/-- Result of parsing the form: text fields in arrival order and the
file map. The TS code stores text fields in an object that merges
duplicate keys into arrays (reads take the first occurrence) and stores
files in an object where a later file field with the same key overwrites
the earlier one; we keep both as ordered association lists and encode
those access disciplines in the lookup functions below. -/
structure CustomParsedForm where
  fields : List (String × String)
  files : List (String × CustomUploadedFile)
deriving Repr, DecidableEq

/-- Reading `fields.userId` then `Array.isArray ? [0] : itself`: the first
text value stored under the key (duplicates became an array in arrival
order, and index 0 is the first occurrence). -/
def fieldFirst (fields : List (String × String)) (key : String) : Option String :=
  (fields.find? (fun kv => kv.1 == key)).map (·.2)

/-- Reading `files[key]`: object assignment overwrites, so the last file
entry stored under the key wins. -/
def fileLast (files : List (String × CustomUploadedFile)) (key : String) :
    Option CustomUploadedFile :=
  (files.reverse.find? (fun kv => kv.1 == key)).map (·.2)

/-- The temp paths the handler registers for cleanup after a successful
parse: `Object.values(files)` — one `CustomUploadedFile` per distinct
key, the last stored one. We collect, per key, the last entry's filepath
(keeping first-arrival key order, which is irrelevant to deletion). -/
def registeredPaths (files : List (String × CustomUploadedFile)) : List String :=
  (files.map (·.1)).eraseDups.filterMap (fun k => (fileLast files k).map (·.filepath))

/-- State and outcome of `parseFormRevised`: `disk` is the list of temp
files this request has created on disk so far; the result is the parsed
form or the thrown write error. Iterates `formData.entries()` in order;
for a file entry it writes the buffer to a fresh temp path (the oracle
`writeOk` says whether `fsPromises.writeFile` succeeds for the n-th file
write of the request) and records the `CustomUploadedFile`; on a write
failure it throws at once, leaving the previously written temp files on
disk. Text entries are accumulated in order. -/
def parseFormRevised (reqId : String) (writeOk : Nat → Bool) :
    List (String × FormValue) → Nat → List String →
    List (String × String) → List (String × CustomUploadedFile) →
    List String × Except String CustomParsedForm
  | [], _, disk, fields, files => (disk, .ok ⟨fields, files⟩)
  | (k, .text s) :: rest, idx, disk, fields, files =>
      parseFormRevised reqId writeOk rest idx disk (fields ++ [(k, s)]) files
  | (k, .file name mt size) :: rest, idx, disk, fields, files =>
      let p := tempPath reqId idx (safeOriginalName name)
      if writeOk idx then
        parseFormRevised reqId writeOk rest (idx + 1) (disk ++ [p]) fields
          (files ++ [(k, ⟨p, name, mt, size⟩)])
      else
        (disk, .error "Failed to write temporary file")

/-- `SUPPORTED_IMAGE_TYPES` from the upload route. -/
def SUPPORTED_IMAGE_TYPES : List String :=
  ["image/jpeg", "image/png", "image/gif", "image/webp"]

/-- `SUPPORTED_PDF_TYPE` from the upload route. -/
def SUPPORTED_PDF_TYPE : String := "application/pdf"

/-- One entry of the PDF conversion response relayed from the Flask
service (`flaskResult.converted_files[i]`). -/
structure ConvertedFile where
  originalName : String
  fileId : String
  filename : String
  pageNumber : Option Nat
deriving Repr, DecidableEq

/-- One entry of the upload route's success payload. -/
structure UploadResult where
  originalName : String
  fileId : String
  filename : String
  contentType : String
  pageNumber : Option Nat
deriving Repr, DecidableEq

/-- Body of the upload route's JSON response: the results array on
success, or an error object with `message` and optional `errorKey`. -/
inductive UploadBody where
  | results (rs : List UploadResult)
  | error (message : String) (errorKey : Option String)
deriving Repr, DecidableEq

/-- An HTTP response of the upload route. -/
structure UploadResp where
  status : Nat
  body : UploadBody
deriving Repr, DecidableEq

/-- Oracles for the external effects one upload request performs, each
recording the outcome the external system produces if/when the handler
reaches that call:
* `flaskUrl`: the `NEXT_PUBLIC_FLASK_SERVER_URL` env var (read at module
  load; `none` = unset);
* `dbOk`: whether `connectToDb()` yields a usable db + GridFS bucket;
* `writeOk n`: whether the n-th temp-file write of the request succeeds;
* `flask`: the PDF conversion call collapsed to its observable outcome —
  `.ok files` when fetch succeeds, the response is OK and parses with a
  `converted_files` array; `.error` for a network failure, a non-OK
  status, a JSON parse failure or a missing array (all of which the
  route turns into a thrown error);
* `gridfs`: the GridFS image upload stream outcome — `.ok id` with the
  store-assigned id on `finish`, `.error` on a read or stream error;
* `now`: `Date.now()` at the image-filename construction. -/
structure UploadEnv where
  flaskUrl : Option String
  dbOk : Bool
  writeOk : Nat → Bool
  flask : Except String (List ConvertedFile)
  gridfs : Except String String
  now : Nat

/-- Full observable outcome of one upload `POST`: the HTTP response, the
temp files still on disk when the handler returns (the request starts
with none), and the final object store. -/
structure PostOutcome where
  resp : UploadResp
  disk : List String
  store : List StoredFile
deriving Repr, DecidableEq

/-- The `finally` cleanup: delete every registered temp path from disk
(`existsSync` + `unlinkSync`; deletion of an existing file succeeds). -/
def cleanup (disk toDelete : List String) : List String :=
  disk.filter (fun p => !(toDelete.contains p))

/-- The upload route `POST` handler. Mirrors the source control flow:
1. if `FLASK_SERVER_URL` is unset/empty, return 500 `FLASK_URL_MISSING`
   before anything else (no form parsing, no temp files, no store write);
2. inside try/finally: connect to the DB (failure throws → 500, nothing
   to clean); parse the form (a mid-parse write failure throws → 500
   with `tempFilePathsToDelete` still empty, so the `finally` removes
   nothing and earlier temp files persist); then register
   `Object.values(files)` paths for cleanup;
3. missing/empty `userId` → 400; missing `file` entry → 400;
4. PDF type → Flask call (failure throws → 500; success relays the
   converted files, stamping `contentType = "image/png"`);
   supported image type → GridFS upload (failure throws → 500; success
   appends the stored document and answers with exactly one result
   carrying the stream's assigned id); any other type → 415;
5. success → 201 with the results array; every exit after registration
   runs the `finally` cleanup of the registered paths. -/
def POST (env : UploadEnv) (reqId : String) (entries : List (String × FormValue))
    (store : List StoredFile) : PostOutcome :=
  if (env.flaskUrl.getD "") = "" then
    ⟨⟨500, .error "Server configuration error: Flask server URL not set."
        (some "FLASK_URL_MISSING")⟩, [], store⟩
  else if !env.dbOk then
    ⟨⟨500, .error "Server Error: Server error: Database or GridFS bucket not initialized."
        none⟩, [], store⟩
  else
    match parseFormRevised reqId env.writeOk entries 0 [] [] [] with
    | (disk, .error m) =>
        ⟨⟨500, .error ("Server Error: Failed to parse form data: " ++ m) none⟩,
          disk, store⟩
    | (disk, .ok form) =>
        let toDelete := registeredPaths form.files
        let finalDisk := cleanup disk toDelete
        match fieldFirst form.fields "userId" with
        | none =>
            ⟨⟨400, .error "Missing userId in form data." (some "MISSING_USER_ID")⟩,
              finalDisk, store⟩
        | some userId =>
            if userId = "" then
              ⟨⟨400, .error "Missing userId in form data." (some "MISSING_USER_ID")⟩,
                finalDisk, store⟩
            else
              match fileLast form.files "file" with
              | none =>
                  ⟨⟨400, .error "No file uploaded or file path missing."
                      (some "NO_FILE_UPLOADED")⟩, finalDisk, store⟩
              | some f =>
                  if f.filepath = "" then
                    ⟨⟨400, .error "No file uploaded or file path missing."
                        (some "NO_FILE_UPLOADED")⟩, finalDisk, store⟩
                  else
                    let actualOriginalName :=
                      if f.originalFilename = "" then "unknown_file"
                      else f.originalFilename
                    if f.mimetype = SUPPORTED_PDF_TYPE then
                      match env.flask with
                      | .error m =>
                          ⟨⟨500, .error ("Server Error: Failed PDF processing: " ++ m)
                              none⟩, finalDisk, store⟩
                      | .ok converted =>
                          let results := converted.map (fun c =>
                            UploadResult.mk c.originalName c.fileId c.filename
                              "image/png" c.pageNumber)
                          ⟨⟨201, .results results⟩, finalDisk, store⟩
                    else if f.mimetype ≠ "" &&
                        SUPPORTED_IMAGE_TYPES.contains f.mimetype then
                      let imageFilename := userId ++ "_" ++ toString env.now ++ "_"
                          ++ safeOriginalName actualOriginalName
                      match env.gridfs with
                      | .error m =>
                          ⟨⟨500, .error ("Server Error: Failed during image processing: "
                              ++ m) none⟩, finalDisk, store⟩
                      | .ok fid =>
                          ⟨⟨201, .results [UploadResult.mk actualOriginalName fid
                              imageFilename f.mimetype none]⟩,
                            finalDisk,
                            store ++ [StoredFile.mk fid imageFilename f.mimetype
                              f.size (some userId)]⟩
                    else
                      ⟨⟨415, .error "Unsupported file type."
                          (some "UNSUPPORTED_FILE_TYPE")⟩, finalDisk, store⟩

/-- A hex digit, as in the driver's `checkForHexRegExp` `[0-9a-fA-F]`. -/
def isHexDigitChar (c : Char) : Bool :=
  ('0' ≤ c && c ≤ '9') || ('a' ≤ c && c ≤ 'f') || ('A' ≤ c && c ≤ 'F')

/-- `ObjectId.isValid` of the MongoDB driver on a string argument: a
12-character string, or a 24-character hex string (the driver's
`checkForHexRegExp`), computed over the string's characters. -/
def objectIdIsValid (s : String) : Bool :=
  s.data.length = 12 || (s.data.length = 24 && s.data.all isHexDigitChar)

/-- Body of a by-id route JSON/stream response: an error/info object
with a `message`, or the streamed file bytes with its headers. -/
inductive IdRouteBody where
  | json (message : String)
  | stream (contentType : String) (contentLength : Nat) (cacheControl : String)
deriving Repr, DecidableEq

/-- An HTTP response of the by-id route. -/
structure IdRouteResp where
  status : Nat
  body : IdRouteBody
deriving Repr, DecidableEq

/-- The by-id route `GET` handler. Mirrors the source control flow:
empty or invalid `fileId` → 400; `connectToDb` failure throws → 500
(its message mentions the connection error, not a missing file, so the
catch block keeps status 500); `bucket.find({_id}).limit(1)` empty →
404; otherwise stream the file back with its content type (or
`application/octet-stream` when the stored one is empty), its length,
and the one-week immutable cache directive. -/
def GET (fileId : String) (dbOk : Bool) (store : List StoredFile) : IdRouteResp :=
  if fileId = "" || !objectIdIsValid fileId then
    ⟨400, .json "Invalid or missing fileId."⟩
  else if !dbOk then
    ⟨500, .json "Database connection error."⟩
  else
    match store.find? (fun f => f.id == fileId) with
    | none => ⟨404, .json "Image not found."⟩
    | some fileInfo =>
        let contentType :=
          if fileInfo.contentType = "" then "application/octet-stream"
          else fileInfo.contentType
        ⟨200, .stream contentType fileInfo.length "public, max-age=604800, immutable"⟩

/-- The by-id route `DELETE` handler, returning the response and the
resulting object store. Mirrors the source control flow, in order:
missing or empty `userId` query parameter (`!userIdFromRequest`) → 401;
empty or invalid `fileId` → 400; `connectToDb` failure throws → 500;
`images.files` lookup empty → 404; stored `metadata.userId` differing
from the caller's id → 403 with no deletion; otherwise
`bucket.delete(objectId)` removes the document → 200. -/
def DELETE (fileId : String) (userIdFromRequest : Option String) (dbOk : Bool)
    (store : List StoredFile) : IdRouteResp × List StoredFile :=
  if (userIdFromRequest.getD "") = "" then
    (⟨401, .json "Unauthorized: Missing user identification."⟩, store)
  else if fileId = "" || !objectIdIsValid fileId then
    (⟨400, .json "Invalid fileId."⟩, store)
  else if !dbOk then
    (⟨500, .json "Database connection error."⟩, store)
  else
    match store.find? (fun f => f.id == fileId) with
    | none => (⟨404, .json "File not found."⟩, store)
    | some fileMetadata =>
        if fileMetadata.ownerId ≠ userIdFromRequest then
          (⟨403, .json "Unauthorized: You do not have permission to delete this file."⟩,
            store)
        else
          (⟨200, .json "File deleted successfully."⟩,
            store.filter (fun f => !(f.id == fileId)))

/-!
## Auth/profile state adapter (`AuthContext.tsx`)

The `onAuthStateChanged` callback in `AuthProvider`'s effect is embedded
as a function from the current profile-listener handle and the incoming
auth event to the ordered list of primitive actions the callback
performs plus the new handle. Listener handles are numbered by a fresh
counter so that distinct subscriptions are distinguishable.
-/

/-- One primitive action of the auth callback, in execution order:
detaching the previous profile `onSnapshot` subscription, the React
state updates, and attaching a new profile subscription. -/
inductive AuthAction where
  | detachProfile (listener : Nat)
  | setUserState (uid : Option String)
  | setUserIdState (uid : Option String)
  | setProfileNull
  | setLoadingState (b : Bool)
  | attachProfile (listener : Nat)
deriving Repr, DecidableEq

/-- The body of the `onAuthStateChanged` callback for one auth event
(`firebaseUser` is the event payload, `none` for signed-out): first
unsubscribe the previous profile listener if one is attached, then set
user/userId and reset the profile, then — only when a user is present —
subscribe to that user's profile document with a fresh listener handle
(`onSnapshot`); with no user, just settle loading. Returns the action
trace and the new value of `profileListenerUnsubscribe`. -/
def onAuthChange (cur : Option Nat) (fresh : Nat) (firebaseUser : Option String) :
    List AuthAction × Option Nat :=
  let detachPart : List AuthAction :=
    match cur with
    | some l => [.detachProfile l]
    | none => []
  let setPart : List AuthAction :=
    [.setUserState firebaseUser, .setUserIdState firebaseUser, .setProfileNull]
  match firebaseUser with
  | some _ =>
      (detachPart ++ setPart ++ [.setLoadingState true, .attachProfile fresh],
        some fresh)
  | none =>
      (detachPart ++ setPart ++ [.setLoadingState false], none)

/-- Run a sequence of auth-state change events through the callback,
starting from listener handle `cur` and fresh counter `fresh`,
concatenating each invocation's action trace. -/
def runAuthEvents (cur : Option Nat) (fresh : Nat) :
    List (Option String) → List AuthAction
  | [] => []
  | e :: es =>
      let r := onAuthChange cur fresh e
      r.1 ++ runAuthEvents r.2 (fresh + 1) es

/-- The set of attached profile listeners after executing a prefix of
actions: attach adds a handle, detach removes it, state updates do
nothing. -/
def activeStep (s : List Nat) : AuthAction → List Nat
  | .detachProfile l => s.erase l
  | .attachProfile l => l :: s
  | _ => s

/-- All attached-listener sets reached while executing an action list
from `s` (including the start and end states). -/
def activeStates (s : List Nat) : List AuthAction → List (List Nat)
  | [] => [s]
  | a :: tr => s :: activeStates (activeStep s a) tr

/-- Whether an action detaches a profile listener. -/
def isDetach : AuthAction → Bool
  | .detachProfile _ => true
  | _ => false

/-- Whether an action attaches a profile listener. -/
def isAttach : AuthAction → Bool
  | .attachProfile _ => true
  | _ => false

/-- Every detach in the action list precedes every attach: once an
attach occurs, no detach follows. -/
def detachesPrecedeAttaches : List AuthAction → Bool
  | [] => true
  | a :: tr =>
      if isAttach a then tr.all (fun b => !isDetach b)
      else detachesPrecedeAttaches tr

/-!
## Theorems
-/

/-- A path in the registered cleanup list never survives the `finally`
cleanup. -/
theorem not_mem_cleanup_of_mem (disk toDelete : List String) (p : String)
    (hp : p ∈ toDelete) : p ∉ cleanup disk toDelete := by
  intro hmem
  rcases List.mem_filter.mp hmem with ⟨-, hkeep⟩
  simp only [Bool.not_eq_true'] at hkeep
  simp at hkeep
  exact hkeep hp

/-- A valid ObjectId string is nonempty. -/
theorem objectIdIsValid_ne_empty {s : String} (h : objectIdIsValid s = true) :
    s ≠ "" := by
  intro he
  subst he
  exact absurd h (by decide)

/-- Claim C9: when the conversion-service base URL env var is unset, the
upload POST returns 500 with errorKey FLASK_URL_MISSING before the form
is parsed — no temp file is ever created and the store is untouched —
for every request, including one carrying a supported image. -/
theorem flask_url_unset_500_before_parse (env : UploadEnv) (reqId : String)
    (entries : List (String × FormValue)) (store : List StoredFile)
    (h : env.flaskUrl = none) :
    (POST env reqId entries store).resp.status = 500 ∧
    (POST env reqId entries store).resp.body =
      .error "Server configuration error: Flask server URL not set."
        (some "FLASK_URL_MISSING") ∧
    (POST env reqId entries store).disk = [] ∧
    (POST env reqId entries store).store = store := by
  simp [POST, h]

/-- Witness for C9 at a concrete request that carries a supported image
(its processing path would never contact the conversion service). -/
theorem flask_url_unset_500_before_parse_witness :
    (POST ⟨none, true, fun _ => true, .ok [], .ok "0123456789ab0123456789ab", 7⟩ "r"
        [("userId", .text "u1"), ("file", .file "a.png" "image/png" 3)] []).resp.status
      = 500 ∧
    (POST ⟨none, true, fun _ => true, .ok [], .ok "0123456789ab0123456789ab", 7⟩ "r"
        [("userId", .text "u1"), ("file", .file "a.png" "image/png" 3)] []).resp.body
      = .error "Server configuration error: Flask server URL not set."
        (some "FLASK_URL_MISSING") ∧
    (POST ⟨none, true, fun _ => true, .ok [], .ok "0123456789ab0123456789ab", 7⟩ "r"
        [("userId", .text "u1"), ("file", .file "a.png" "image/png" 3)] []).disk = [] ∧
    (POST ⟨none, true, fun _ => true, .ok [], .ok "0123456789ab0123456789ab", 7⟩ "r"
        [("userId", .text "u1"), ("file", .file "a.png" "image/png" 3)] []).store = [] :=
  flask_url_unset_500_before_parse _ "r" _ [] rfl

/-- Claim C3: an upload POST carrying a userId and a file whose declared
content type is neither `application/pdf` nor a supported image type
answers 415 and writes nothing to the object store (under the ambient
conditions of reaching the type dispatch: configured Flask URL, usable
DB connection, successfully parsed form). -/
theorem unsupported_type_415_no_store_write (env : UploadEnv) (reqId : String)
    (entries : List (String × FormValue)) (store : List StoredFile) (u : String)
    (disk : List String) (form : CustomParsedForm) (uid : String)
    (f : CustomUploadedFile)
    (hflask : env.flaskUrl = some u) (hu : u ≠ "") (hdb : env.dbOk = true)
    (hparse : parseFormRevised reqId env.writeOk entries 0 [] [] [] = (disk, .ok form))
    (huid : fieldFirst form.fields "userId" = some uid) (huid2 : uid ≠ "")
    (hfile : fileLast form.files "file" = some f) (hfp : f.filepath ≠ "")
    (hpdf : f.mimetype ≠ SUPPORTED_PDF_TYPE)
    (himg : f.mimetype ∉ SUPPORTED_IMAGE_TYPES) :
    (POST env reqId entries store).resp.status = 415 ∧
    (POST env reqId entries store).resp.body =
      .error "Unsupported file type." (some "UNSUPPORTED_FILE_TYPE") ∧
    (POST env reqId entries store).store = store := by
  simp [POST, hflask, hu, hdb, hparse, huid, huid2, hfile, hfp, hpdf, himg]

/-- Witness for C3: a `text/plain` upload with a userId. -/
theorem unsupported_type_415_no_store_write_witness :
    (POST ⟨some "http://flask", true, fun _ => true, .ok [], .ok "id1", 7⟩ "r"
        [("userId", .text "u1"), ("file", .file "a.txt" "text/plain" 3)] []).resp.status
      = 415 ∧
    (POST ⟨some "http://flask", true, fun _ => true, .ok [], .ok "id1", 7⟩ "r"
        [("userId", .text "u1"), ("file", .file "a.txt" "text/plain" 3)] []).resp.body
      = .error "Unsupported file type." (some "UNSUPPORTED_FILE_TYPE") ∧
    (POST ⟨some "http://flask", true, fun _ => true, .ok [], .ok "id1", 7⟩ "r"
        [("userId", .text "u1"), ("file", .file "a.txt" "text/plain" 3)] []).store = [] :=
  unsupported_type_415_no_store_write _ "r" _ [] "http://flask" _ _ "u1" _
    rfl (by decide) rfl rfl rfl (by decide) rfl (by decide) (by decide) (by decide)

/-- Claim C5: a PDF upload that completes successfully answers 201 with
an array of zero or more page entries — one per converted file the
Flask service returned — every one of which has contentType
`image/png`. -/
theorem pdf_success_entries_all_png (env : UploadEnv) (reqId : String)
    (entries : List (String × FormValue)) (store : List StoredFile) (u : String)
    (disk : List String) (form : CustomParsedForm) (uid : String)
    (f : CustomUploadedFile) (converted : List ConvertedFile)
    (hflask : env.flaskUrl = some u) (hu : u ≠ "") (hdb : env.dbOk = true)
    (hparse : parseFormRevised reqId env.writeOk entries 0 [] [] [] = (disk, .ok form))
    (huid : fieldFirst form.fields "userId" = some uid) (huid2 : uid ≠ "")
    (hfile : fileLast form.files "file" = some f) (hfp : f.filepath ≠ "")
    (hpdf : f.mimetype = SUPPORTED_PDF_TYPE)
    (hconv : env.flask = .ok converted) :
    (POST env reqId entries store).resp.status = 201 ∧
    ∃ rs, (POST env reqId entries store).resp.body = .results rs ∧
      rs.length = converted.length ∧
      ∀ r ∈ rs, r.contentType = "image/png" := by
  refine ⟨?_, ⟨converted.map (fun c =>
      UploadResult.mk c.originalName c.fileId c.filename "image/png" c.pageNumber),
    ?_, ?_, ?_⟩⟩
  · simp [POST, hflask, hu, hdb, hparse, huid, huid2, hfile, hfp, hpdf, hconv]
  · simp [POST, hflask, hu, hdb, hparse, huid, huid2, hfile, hfp, hpdf, hconv]
  · simp
  · intro r hr
    rcases List.mem_map.mp hr with ⟨c, -, rfl⟩
    rfl

/-- Witness for C5: a two-page PDF conversion. -/
theorem pdf_success_entries_all_png_witness :
    (POST ⟨some "http://flask", true, fun _ => true,
        .ok [⟨"doc.pdf", "aaaaaaaaaaaaaaaaaaaaaaaa", "p1.png", some 1⟩,
             ⟨"doc.pdf", "bbbbbbbbbbbbbbbbbbbbbbbb", "p2.png", some 2⟩],
        .ok "id1", 7⟩ "r"
        [("userId", .text "u1"), ("file", .file "doc.pdf" "application/pdf" 9)]
        []).resp.status = 201 ∧
    ∃ rs, (POST ⟨some "http://flask", true, fun _ => true,
        .ok [⟨"doc.pdf", "aaaaaaaaaaaaaaaaaaaaaaaa", "p1.png", some 1⟩,
             ⟨"doc.pdf", "bbbbbbbbbbbbbbbbbbbbbbbb", "p2.png", some 2⟩],
        .ok "id1", 7⟩ "r"
        [("userId", .text "u1"), ("file", .file "doc.pdf" "application/pdf" 9)]
        []).resp.body = .results rs ∧
      rs.length = 2 ∧ ∀ r ∈ rs, r.contentType = "image/png" :=
  pdf_success_entries_all_png _ "r" _ [] "http://flask"
    ["/tmp/nextjs_temp_r_0_doc.pdf"]
    ⟨[("userId", "u1")],
      [("file", ⟨"/tmp/nextjs_temp_r_0_doc.pdf", "doc.pdf", "application/pdf", 9⟩)]⟩
    "u1" ⟨"/tmp/nextjs_temp_r_0_doc.pdf", "doc.pdf", "application/pdf", 9⟩
    [⟨"doc.pdf", "aaaaaaaaaaaaaaaaaaaaaaaa", "p1.png", some 1⟩,
     ⟨"doc.pdf", "bbbbbbbbbbbbbbbbbbbbbbbb", "p2.png", some 2⟩]
    rfl (by decide) rfl
    (by simp [parseFormRevised, tempPath, safeOriginalName]; decide)
    rfl (by decide) rfl (by decide) rfl rfl

/-- Claim C4: an image upload of a supported type that completes
successfully answers 201 whose body is an array with exactly one entry;
that entry's fileId is the id the GridFS upload stream assigned, and the
store gained exactly the corresponding document. -/
theorem supported_image_single_result (env : UploadEnv) (reqId : String)
    (entries : List (String × FormValue)) (store : List StoredFile) (u : String)
    (disk : List String) (form : CustomParsedForm) (uid : String)
    (f : CustomUploadedFile) (fid : String)
    (hflask : env.flaskUrl = some u) (hu : u ≠ "") (hdb : env.dbOk = true)
    (hparse : parseFormRevised reqId env.writeOk entries 0 [] [] [] = (disk, .ok form))
    (huid : fieldFirst form.fields "userId" = some uid) (huid2 : uid ≠ "")
    (hfile : fileLast form.files "file" = some f) (hfp : f.filepath ≠ "")
    (himg : f.mimetype ∈ SUPPORTED_IMAGE_TYPES)
    (hgrid : env.gridfs = .ok fid) :
    (POST env reqId entries store).resp.status = 201 ∧
    (∃ r, (POST env reqId entries store).resp.body = .results [r] ∧ r.fileId = fid) ∧
    (∃ sf, (POST env reqId entries store).store = store ++ [sf] ∧ sf.id = fid) := by
  have hpdf : f.mimetype ≠ SUPPORTED_PDF_TYPE := by
    intro he
    rw [he] at himg
    simp [SUPPORTED_IMAGE_TYPES, SUPPORTED_PDF_TYPE] at himg
  have hne : f.mimetype ≠ "" := by
    intro he
    rw [he] at himg
    simp [SUPPORTED_IMAGE_TYPES] at himg
  refine ⟨?_, ⟨UploadResult.mk
      (if f.originalFilename = "" then "unknown_file" else f.originalFilename) fid
      (uid ++ "_" ++ toString env.now ++ "_" ++ safeOriginalName
        (if f.originalFilename = "" then "unknown_file" else f.originalFilename))
      f.mimetype none, ?_, rfl⟩,
    ⟨StoredFile.mk fid
      (uid ++ "_" ++ toString env.now ++ "_" ++ safeOriginalName
        (if f.originalFilename = "" then "unknown_file" else f.originalFilename))
      f.mimetype f.size (some uid), ?_, rfl⟩⟩ <;>
  simp [POST, hflask, hu, hdb, hparse, huid, huid2, hfile, hfp, hpdf, hne, himg, hgrid]

/-- Witness for C4: a concrete JPEG upload stored under a concrete
GridFS id. -/
theorem supported_image_single_result_witness :
    (POST ⟨some "http://flask", true, fun _ => true, .ok [],
        .ok "0123456789ab0123456789ab", 7⟩ "r"
        [("userId", .text "u1"), ("file", .file "a.jpg" "image/jpeg" 3)]
        []).resp.status = 201 ∧
    (∃ r, (POST ⟨some "http://flask", true, fun _ => true, .ok [],
        .ok "0123456789ab0123456789ab", 7⟩ "r"
        [("userId", .text "u1"), ("file", .file "a.jpg" "image/jpeg" 3)]
        []).resp.body = .results [r] ∧ r.fileId = "0123456789ab0123456789ab") ∧
    (∃ sf, (POST ⟨some "http://flask", true, fun _ => true, .ok [],
        .ok "0123456789ab0123456789ab", 7⟩ "r"
        [("userId", .text "u1"), ("file", .file "a.jpg" "image/jpeg" 3)]
        []).store = [] ++ [sf] ∧ sf.id = "0123456789ab0123456789ab") :=
  supported_image_single_result _ "r" _ [] "http://flask" _ _ "u1" _
    "0123456789ab0123456789ab"
    rfl (by decide) rfl rfl rfl (by decide) rfl (by decide) (by decide) rfl

/-- Claim C7: once the form is parsed (and the route is configured and
the DB reachable), an absent userId field answers 400, and a present
userId with no file in the `file` field also answers 400. -/
theorem missing_userid_or_file_400 (env : UploadEnv) (reqId : String)
    (entries : List (String × FormValue)) (store : List StoredFile) (u : String)
    (disk : List String) (form : CustomParsedForm)
    (hflask : env.flaskUrl = some u) (hu : u ≠ "") (hdb : env.dbOk = true)
    (hparse : parseFormRevised reqId env.writeOk entries 0 [] [] [] = (disk, .ok form)) :
    (fieldFirst form.fields "userId" = none →
      (POST env reqId entries store).resp.status = 400) ∧
    (∀ uid, fieldFirst form.fields "userId" = some uid →
      fileLast form.files "file" = none →
      (POST env reqId entries store).resp.status = 400) := by
  constructor
  · intro hnone
    simp [POST, hflask, hu, hdb, hparse, hnone]
  · intro uid huid hnofile
    by_cases huid2 : uid = ""
    · simp [POST, hflask, hu, hdb, hparse, huid, huid2]
    · simp [POST, hflask, hu, hdb, hparse, huid, huid2, hnofile]

/-- Witness for C7: one request with no userId field, one with a userId
but no file field. -/
theorem missing_userid_or_file_400_witness :
    (POST ⟨some "http://flask", true, fun _ => true, .ok [], .ok "id1", 7⟩ "r"
        [("other", .text "x")] []).resp.status = 400 ∧
    (POST ⟨some "http://flask", true, fun _ => true, .ok [], .ok "id1", 7⟩ "r"
        [("userId", .text "u1")] []).resp.status = 400 :=
  ⟨(missing_userid_or_file_400 _ "r" [("other", .text "x")] [] "http://flask" _ _
      rfl (by decide) rfl rfl).1 rfl,
   (missing_userid_or_file_400 _ "r" [("userId", .text "u1")] [] "http://flask" _ _
      rfl (by decide) rfl rfl).2 "u1" rfl rfl⟩

/-- Claim C1, counterexample: on a request whose form carries two files
under the same `file` field name, the handler succeeds (201) yet the
first file's temp scratch path is still on disk when the handler
returns — object-key assignment keeps only the last file per field, so
only that one is registered for cleanup. -/
theorem scratch_file_survives_success :
    (POST ⟨some "http://flask", true, fun _ => true, .ok [],
        .ok "0123456789ab0123456789ab", 7⟩ "r"
        [("userId", .text "u1"), ("file", .file "a.png" "image/png" 3),
         ("file", .file "b.png" "image/png" 4)] []).resp.status = 201 ∧
    "/tmp/nextjs_temp_r_0_a.png" ∈
      (POST ⟨some "http://flask", true, fun _ => true, .ok [],
        .ok "0123456789ab0123456789ab", 7⟩ "r"
        [("userId", .text "u1"), ("file", .file "a.png" "image/png" 3),
         ("file", .file "b.png" "image/png" 4)] []).disk := by
  constructor
  · decide
  · decide

/-- Claim C1 as amended: every temp scratch file that the handler
registers for cleanup (the files present in the parsed form's file map)
is gone from disk by the time the handler returns, on every exit path —
success, business-error response, or thrown error. Scratch files never
registered (a mid-parse write failure aborts before registration, and a
repeated file field keeps only its last file in the map) are the ones
that can persist. -/
theorem registered_scratch_files_removed (env : UploadEnv) (reqId : String)
    (entries : List (String × FormValue)) (store : List StoredFile)
    (disk : List String) (form : CustomParsedForm)
    (hparse : parseFormRevised reqId env.writeOk entries 0 [] [] [] = (disk, .ok form)) :
    ∀ p ∈ registeredPaths form.files, p ∉ (POST env reqId entries store).disk := by
  intro p hp
  have hnc : p ∉ cleanup disk (registeredPaths form.files) :=
    not_mem_cleanup_of_mem _ _ _ hp
  simp only [POST, hparse]
  split
  · exact List.not_mem_nil p
  · split
    · exact List.not_mem_nil p
    · repeat' split
      all_goals exact hnc

/-- Witness for the amended C1: a successful single-image upload whose
registered scratch path is absent from the final disk. -/
theorem registered_scratch_files_removed_witness :
    "/tmp/nextjs_temp_r_0_a.png" ∈
      registeredPaths [("file", ⟨"/tmp/nextjs_temp_r_0_a.png", "a.png", "image/png", 3⟩)] ∧
    "/tmp/nextjs_temp_r_0_a.png" ∉
      (POST ⟨some "http://flask", true, fun _ => true, .ok [],
        .ok "0123456789ab0123456789ab", 7⟩ "r"
        [("userId", .text "u1"), ("file", .file "a.png" "image/png" 3)] []).disk :=
  ⟨by decide,
   registered_scratch_files_removed _ "r" _ []
     ["/tmp/nextjs_temp_r_0_a.png"]
     ⟨[("userId", "u1")], [("file", ⟨"/tmp/nextjs_temp_r_0_a.png", "a.png", "image/png", 3⟩)]⟩
     (by simp [parseFormRevised, tempPath, safeOriginalName]; decide)
     "/tmp/nextjs_temp_r_0_a.png" (by decide)⟩

/-- Claim C6: the by-id GET answers 400 when the fileId path parameter
is missing (empty) or not a well-formed store identifier, and 404 when
the identifier is well-formed (and the store reachable) but no stored
object has that id. -/
theorem get_invalid_400_absent_404 (fileId : String) (dbOk : Bool)
    (store : List StoredFile) :
    (objectIdIsValid fileId = false → (GET fileId dbOk store).status = 400) ∧
    (objectIdIsValid fileId = true → dbOk = true →
      (∀ f ∈ store, f.id ≠ fileId) → (GET fileId dbOk store).status = 404) := by
  constructor
  · intro h
    simp [GET, h]
  · intro hv hdb hnone
    have hne : fileId ≠ "" := objectIdIsValid_ne_empty hv
    have hfind : store.find? (fun f => f.id == fileId) = none := by
      rw [List.find?_eq_none]
      intro f hf
      simpa using hnone f hf
    simp [GET, hv, hdb, hne, hfind]

/-- Witness for C6: a malformed id answers 400; a well-formed id absent
from the store answers 404. -/
theorem get_invalid_400_absent_404_witness :
    (GET "not-an-objectid-string" true
      [⟨"0123456789ab0123456789ab", "img.png", "image/png", 5, some "alice"⟩]).status
        = 400 ∧
    (GET "ffffffffffffffffffffffff" true
      [⟨"0123456789ab0123456789ab", "img.png", "image/png", 5, some "alice"⟩]).status
        = 404 :=
  ⟨(get_invalid_400_absent_404 "not-an-objectid-string" true
      [⟨"0123456789ab0123456789ab", "img.png", "image/png", 5, some "alice"⟩]).1
      (by decide),
   (get_invalid_400_absent_404 "ffffffffffffffffffffffff" true
      [⟨"0123456789ab0123456789ab", "img.png", "image/png", 5, some "alice"⟩]).2
      (by decide) rfl (by decide)⟩

/-- Claim C2, counterexample: with the userId query parameter present
but empty — the caller-supplied owner id `""` certainly differs from
the stored owner `alice` of an existing object — the DELETE answers
401, not the 403 the claim requires: the falsy-userId check fires
before the ownership comparison. -/
theorem delete_mismatch_not_always_403 :
    (DELETE "507f191e810c19729de860ea" (some "") true
      [⟨"507f191e810c19729de860ea", "img.png", "image/png", 5, some "alice"⟩]).1.status
        = 401 ∧
    (DELETE "507f191e810c19729de860ea" (some "") true
      [⟨"507f191e810c19729de860ea", "img.png", "image/png", 5, some "alice"⟩]).1.status
        ≠ 403 := by
  constructor
  · decide
  · decide

/-- Claim C2 as amended: for a DELETE whose fileId refers to an existing
stored object, when the caller-supplied userId is nonempty and differs
from the userId recorded in that object's metadata, the handler answers
403 and the store is left unchanged (the object is not deleted). -/
theorem delete_mismatched_owner_403_intact (fileId : String) (u : String)
    (dbOk : Bool) (store : List StoredFile) (f : StoredFile)
    (hu : u ≠ "") (hv : objectIdIsValid fileId = true) (hdb : dbOk = true)
    (hfind : store.find? (fun g => g.id == fileId) = some f)
    (hown : f.ownerId ≠ some u) :
    (DELETE fileId (some u) dbOk store).1.status = 403 ∧
    (DELETE fileId (some u) dbOk store).2 = store := by
  have hne : fileId ≠ "" := objectIdIsValid_ne_empty hv
  simp [DELETE, hu, hne, hv, hdb, hfind, hown]

/-- Witness for the amended C2: caller `mallory` attempts to delete a
stored object owned by `alice`. -/
theorem delete_mismatched_owner_403_intact_witness :
    (DELETE "507f191e810c19729de860ea" (some "mallory") true
      [⟨"507f191e810c19729de860ea", "img.png", "image/png", 5, some "alice"⟩]).1.status
        = 403 ∧
    (DELETE "507f191e810c19729de860ea" (some "mallory") true
      [⟨"507f191e810c19729de860ea", "img.png", "image/png", 5, some "alice"⟩]).2
        = [⟨"507f191e810c19729de860ea", "img.png", "image/png", 5, some "alice"⟩] :=
  delete_mismatched_owner_403_intact "507f191e810c19729de860ea" "mallory" true
    [⟨"507f191e810c19729de860ea", "img.png", "image/png", 5, some "alice"⟩]
    ⟨"507f191e810c19729de860ea", "img.png", "image/png", 5, some "alice"⟩
    (by decide) (by decide) rfl (by decide) (by decide)

/-- Claim C10: the DELETE handler checks the missing userId before
validating the fileId: without a userId query parameter the answer is
401 whatever the fileId (malformed or referring to nothing), and a 400
is only ever produced when a userId was supplied. -/
theorem delete_401_precedes_400 (fileId : String) (uOpt : Option String)
    (dbOk : Bool) (store : List StoredFile) :
    (DELETE fileId none dbOk store).1.status = 401 ∧
    ((DELETE fileId uOpt dbOk store).1.status = 400 → uOpt ≠ none) := by
  constructor
  · simp [DELETE]
  · intro h400 hnone
    subst hnone
    simp [DELETE] at h400

/-- Witness for C10: a malformed fileId with no userId answers 401; the
same malformed fileId with a userId answers 400, so the 400 case indeed
had a userId supplied. -/
theorem delete_401_precedes_400_witness :
    (DELETE "not-an-objectid-string" none true []).1.status = 401 ∧
    some "u1" ≠ (none : Option String) :=
  ⟨(delete_401_precedes_400 "not-an-objectid-string" none true []).1,
   (delete_401_precedes_400 "not-an-objectid-string" (some "u1") true []).2
     (by decide)⟩

/-- Splitting the reached listener-sets of a concatenated action list:
a set reached along `t1 ++ t2` is reached along `t1`, or along `t2`
started from `t1`'s end state. -/
theorem mem_activeStates_append {s' : List Nat} {s : List Nat}
    {t1 t2 : List AuthAction} (h : s' ∈ activeStates s (t1 ++ t2)) :
    s' ∈ activeStates s t1 ∨ s' ∈ activeStates (t1.foldl activeStep s) t2 := by
  induction t1 generalizing s with
  | nil =>
      right
      simpa using h
  | cons a tr ih =>
      rw [List.cons_append, activeStates] at h
      rcases List.mem_cons.mp h with rfl | h
      · left
        exact List.mem_cons_self _ _
      · rcases ih h with h1 | h1
        · left
          exact List.mem_cons_of_mem _ h1
        · right
          simpa [List.foldl] using h1

/-- One auth-change callback invocation, started from the listener set
that matches the current subscription handle, keeps at most one profile
listener attached at every intermediate point, and ends in the set that
matches the handle it returns. -/
theorem onAuthChange_states_bounded (cur : Option Nat) (fresh : Nat)
    (user : Option String) :
    (∀ s ∈ activeStates cur.toList (onAuthChange cur fresh user).1, s.length ≤ 1) ∧
    (onAuthChange cur fresh user).1.foldl activeStep cur.toList
      = (onAuthChange cur fresh user).2.toList := by
  cases cur <;> cases user <;>
    simp [onAuthChange, activeStates, activeStep, List.foldl]

/-- Across any sequence of auth-state change events, the set of
attached profile listeners never holds more than one element at any
point of the generated action trace. -/
theorem runAuthEvents_states_bounded (events : List (Option String)) :
    ∀ (cur : Option Nat) (fresh : Nat),
      ∀ s ∈ activeStates cur.toList (runAuthEvents cur fresh events),
        s.length ≤ 1 := by
  induction events with
  | nil =>
      intro cur fresh s hs
      simp [runAuthEvents, activeStates] at hs
      subst hs
      cases cur <;> simp
  | cons e es ih =>
      intro cur fresh s hs
      simp only [runAuthEvents] at hs
      rcases mem_activeStates_append hs with h | h
      · exact (onAuthChange_states_bounded cur fresh e).1 s h
      · rw [(onAuthChange_states_bounded cur fresh e).2] at h
        exact ih (onAuthChange cur fresh e).2 (fresh + 1) s h

/-- Claim C8: in the auth/profile adapter, starting with no profile
listener, any sequence of auth-state change events keeps at most one
profile listener attached at every point of the action trace, and
within each callback invocation every detach of the previous listener
precedes the attach of the new one. -/
theorem auth_profile_listener_swap (events : List (Option String)) :
    (∀ s ∈ activeStates [] (runAuthEvents none 0 events), s.length ≤ 1) ∧
    (∀ (cur : Option Nat) (fresh : Nat) (user : Option String),
      detachesPrecedeAttaches (onAuthChange cur fresh user).1 = true) := by
  constructor
  · have h := runAuthEvents_states_bounded events none 0
    simpa using h
  · intro cur fresh user
    cases cur <;> cases user <;>
      simp [onAuthChange, detachesPrecedeAttaches, isAttach, isDetach]

/-- Witness for C8 at a concrete event sequence: a sign-in as `alice`,
a switch to `bob`, then a sign-out. -/
theorem auth_profile_listener_swap_witness :
    ([1].length ≤ 1) ∧
    detachesPrecedeAttaches (onAuthChange (some 0) 1 (some "bob")).1 = true :=
  ⟨(auth_profile_listener_swap [some "alice", some "bob", none]).1 [1] (by decide),
   (auth_profile_listener_swap [some "alice", some "bob", none]).2 (some 0) 1
     (some "bob")⟩

end CertIntel
